import Mathlib

/-!
Shallow embedding of the AdOps trafficking core:
`src/trafficking/engine.py` (TraffickingEngine: ticket routing and payload
construction) and `src/trafficking/qa_engine.py` (QAEngine: rule-based QA
checks), together with theorems settling the specification claims about them.

Python dictionaries for tickets and campaigns are embedded as structures whose
fields are `Option`-valued: `none` models an absent key, `some v` a present
key (the spec data model declares all campaign fields optional strings, the
budget numeric).  Payload parameter dictionaries (`Dict[str, Any]`) are
embedded as ordered association lists over a `Value` type covering the
value shapes the engine produces (strings, numbers, `None`, string lists).
`TraffickingPayload.created_at` is produced by `datetime.now().isoformat()`
in the source; the clock reading is made an explicit `now` argument of
`process_ticket`, so that dependence on wall-clock time is visible in the
embedding.
-/

namespace AdOps

/-- Value shapes appearing in payload parameter dictionaries. -/
inductive Value where
  | vStr : String → Value
  | vNum : Int → Value
  | vNone : Value
  | vStrList : List String → Value
deriving DecidableEq, Repr

/-- Python substring membership `needle in hay` on strings: some offset of
`hay` carries `needle` as a contiguous slice. -/
def strContains (hay needle : String) : Bool :=
  (List.range (hay.toList.length + 1)).any
    (fun i => (hay.toList.drop i).take needle.toList.length == needle.toList)

/-- Python `s.count("|")`: number of pipe characters in `s`. -/
def countPipes (s : String) : Nat :=
  s.toList.count '|'

/-- Python `s.startswith(p)` on strings: `p` is a leading slice of `s`. -/
def strStartsWith (s p : String) : Bool :=
  s.toList.take p.toList.length == p.toList

/-- Python value of an optional string: a missing key yields `None`. -/
def optStrVal : Option String → Value
  | some s => Value.vStr s
  | none => Value.vNone

/-- Ticket fields read by the engine (`ticket_fields` dict). -/
structure Ticket where
  request_type : Option String := none
  platform : Option String := none
  campaign_id : Option String := none
  targeting_geo : Option String := none
  brand : Option String := none
deriving DecidableEq, Repr

/-- Campaign fields read by the engine and the QA engine (`campaign_fields` dict). -/
structure Campaign where
  campaign_name : Option String := none
  targeting_geo : Option String := none
  language : Option String := none
  brand_code : Option String := none
  title_name : Option String := none
  campaign_objective : Option String := none
  channel_mapped : Option String := none
  start_date : Option String := none
  budget_usd : Option Int := none
  audience_detailed : Option String := none
  landing_page : Option String := none
deriving DecidableEq, Repr

/-- `TraffickingPayload` dataclass from `engine.py`.  `created_at` is filled
with the clock reading passed to `process_ticket` (source:
`datetime.now().isoformat()`). -/
structure TraffickingPayload where
  campaign_id : String
  platform : String
  action : String
  payload : List (String × Value)
  status : String := "Pending"
  response : Option (List (String × Value)) := none
  created_at : String
deriving DecidableEq, Repr

/-- One QA check result dict: keys `check`, `result`, `details`. -/
structure QAResult where
  check : String
  result : String
  details : String
deriving DecidableEq, Repr

namespace TraffickingEngine

/-- `TraffickingEngine.get_eve_version` from `engine.py`. -/
def get_eve_version (platform channel_mapped : String) : String :=
  if platform = "CM360" ∧ channel_mapped ∈ (["ProgAudio", "ProgCTV", "ProgNative"] : List String) then
    "V2.2"
  else if platform = "CM360" ∧ channel_mapped = "YouTube" then
    "V2.1"
  else if platform = "Yahoo DSP" then
    "V2"
  else if platform = "Amazon DSP" then
    "V3"
  else if platform = "DV360" then
    "V1"
  else
    "V1"

/-- `TraffickingEngine.build_placement_taxonomy` from `engine.py`. -/
def build_placement_taxonomy (ticket : Ticket) (campaign : Campaign) : String :=
  let camp_name := campaign.campaign_name.getD "UNKNOWN_CAMP"
  let geo := campaign.targeting_geo.getD (ticket.targeting_geo.getD "UNKNOWN_GEO")
  let lang := campaign.language.getD "ENG"
  let brand := campaign.brand_code.getD (ticket.brand.getD "UNKNOWN_BRAND")
  let title := campaign.title_name.getD "UNKNOWN_TITLE"
  let objective := campaign.campaign_objective.getD "Acq"
  let channel := campaign.channel_mapped.getD "ProgDisplay"
  camp_name ++ "|" ++ geo ++ "|" ++ lang ++ "|" ++ brand ++ "|" ++ title ++ "|" ++ objective ++ "|" ++ channel

/-- `TraffickingEngine._handle_new_campaign_setup` from `engine.py`. -/
def handle_new_campaign_setup (now : String) (ticket : Ticket) (campaign : Campaign)
    (platform : String) : List TraffickingPayload :=
  let camp_id := ticket.campaign_id.getD "CMP-UNKNOWN"
  let taxonomy := build_placement_taxonomy ticket campaign
  [ { campaign_id := camp_id
      platform := "CM360"
      action := "CREATE_CAMPAIGN_SHELL"
      payload := [("name", Value.vStr (campaign.campaign_name.getD "New Campaign")),
                  ("start_date", optStrVal campaign.start_date)]
      created_at := now },
    { campaign_id := camp_id
      platform := "CM360"
      action := "CREATE_PLACEMENT"
      payload := [("placement_name", Value.vStr taxonomy), ("site", Value.vStr platform)]
      created_at := now },
    { campaign_id := camp_id
      platform := platform
      action := "CREATE_INSERTION_ORDER"
      payload := [("budget", Value.vNum (campaign.budget_usd.getD 0)),
                  ("targeting", optStrVal campaign.audience_detailed)]
      created_at := now } ]

/-- `TraffickingEngine._handle_creative_rotation` from `engine.py`. -/
def handle_creative_rotation (now : String) (ticket : Ticket) (campaign : Campaign)
    (_platform : String) : List TraffickingPayload :=
  let camp_id := ticket.campaign_id.getD "CMP-UNKNOWN"
  [ { campaign_id := camp_id
      platform := "CM360"
      action := "ROTATE_CREATIVES"
      payload := [("placements", Value.vStrList [build_placement_taxonomy ticket campaign]),
                  ("new_assets", Value.vStrList ["asset_1.mp4", "asset_2.jpg"])]
      created_at := now } ]

/-- `TraffickingEngine._handle_budget_change` from `engine.py`. -/
def handle_budget_change (now : String) (ticket : Ticket) (campaign : Campaign)
    (platform : String) : List TraffickingPayload :=
  let camp_id := ticket.campaign_id.getD "CMP-UNKNOWN"
  [ { campaign_id := camp_id
      platform := platform
      action := "UPDATE_BUDGET"
      payload := [("new_budget", Value.vNum (campaign.budget_usd.getD 0))]
      created_at := now } ]

/-- `TraffickingEngine._handle_new_line_item` from `engine.py`. -/
def handle_new_line_item (now : String) (ticket : Ticket) (campaign : Campaign)
    (platform : String) : List TraffickingPayload :=
  let camp_id := ticket.campaign_id.getD "CMP-UNKNOWN"
  [ { campaign_id := camp_id
      platform := platform
      action := "CREATE_LINE_ITEM"
      payload := [("targeting", optStrVal campaign.audience_detailed)]
      created_at := now } ]

/-- `TraffickingEngine._handle_targeting_update` from `engine.py`. -/
def handle_targeting_update (now : String) (ticket : Ticket) (campaign : Campaign)
    (platform : String) : List TraffickingPayload :=
  let camp_id := ticket.campaign_id.getD "CMP-UNKNOWN"
  [ { campaign_id := camp_id
      platform := platform
      action := "UPDATE_TARGETING"
      payload := [("new_targeting", optStrVal campaign.audience_detailed),
                  ("geo", optStrVal campaign.targeting_geo)]
      created_at := now } ]

/-- `TraffickingEngine._handle_tag_implementation` from `engine.py`. -/
def handle_tag_implementation (now : String) (ticket : Ticket) (_campaign : Campaign)
    (_platform : String) : List TraffickingPayload :=
  let camp_id := ticket.campaign_id.getD "CMP-UNKNOWN"
  [ { campaign_id := camp_id
      platform := "CM360"
      action := "CREATE_FLOODLIGHT_TAG"
      payload := [("conversion_type", Value.vStr "Subscription"),
                  ("counting_method", Value.vStr "STANDARD")]
      created_at := now } ]

/-- `TraffickingEngine.process_ticket` from `engine.py`: routes a ticket to
the handler for its request type.  `now` is the wall-clock reading stamped
into every constructed payload. -/
def process_ticket (now : String) (ticket_fields : Ticket) (campaign_fields : Campaign) :
    List TraffickingPayload :=
  let req_type := ticket_fields.request_type.getD ""
  let platform := ticket_fields.platform.getD "DV360"
  if strContains req_type "New Campaign" || strContains req_type "New Placements" then
    handle_new_campaign_setup now ticket_fields campaign_fields platform
  else if strContains req_type "Creative Rotation" || strContains req_type "Retrafficking" then
    handle_creative_rotation now ticket_fields campaign_fields platform
  else if req_type = "Budget Change" then
    handle_budget_change now ticket_fields campaign_fields platform
  else if req_type = "New Line Item" then
    handle_new_line_item now ticket_fields campaign_fields platform
  else if req_type = "Targeting Update" then
    handle_targeting_update now ticket_fields campaign_fields platform
  else if req_type = "Site Tagging" ∨ req_type = "Kochava" then
    handle_tag_implementation now ticket_fields campaign_fields platform
  else
    []

end TraffickingEngine

namespace QAEngine

/-- `QAEngine.check_spec_compliance` from `qa_engine.py`: passes iff the
payload list is non-empty (Python list truthiness). -/
def check_spec_compliance (payloads : List TraffickingPayload) (_campaign : Campaign) : QAResult :=
  { check := "Spec Compliance"
    result := if payloads.isEmpty then "Fail" else "Pass"
    details := "Creative matches spec." }

/-- `QAEngine.check_tracking` from `qa_engine.py`: the computed `missing`
list is discarded by the source, so the check always passes (documented stub). -/
def check_tracking (_payloads : List TraffickingPayload) (_campaign : Campaign) : QAResult :=
  { check := "Tracking", result := "Pass", details := "Tracking tags configured." }

/-- `QAEngine.check_targeting` from `qa_engine.py`: Python `if not geo`
fails on an absent key and on an empty string. -/
def check_targeting (_payloads : List TraffickingPayload) (campaign : Campaign) : QAResult :=
  match campaign.targeting_geo with
  | none => { check := "Targeting", result := "Fail", details := "Missing geo targeting." }
  | some geo =>
    if geo = "" then
      { check := "Targeting", result := "Fail", details := "Missing geo targeting." }
    else
      { check := "Targeting", result := "Pass", details := "Geo targeting found: " ++ geo }

/-- `QAEngine.check_frequency_cap` from `qa_engine.py`: always passes, with
a message variant for sponsorship campaigns. -/
def check_frequency_cap (_payloads : List TraffickingPayload) (campaign : Campaign) : QAResult :=
  let camp_name := campaign.campaign_name.getD ""
  if strContains camp_name "BES" || strContains camp_name "Sponsorship" then
    { check := "Frequency Cap", result := "Pass", details := "Frequency cap set for Sponsorship." }
  else
    { check := "Frequency Cap", result := "Pass", details := "Frequency cap standard." }

/-- `QAEngine.check_content_exclusions` from `qa_engine.py`. -/
def check_content_exclusions (_payloads : List TraffickingPayload) (campaign : Campaign) : QAResult :=
  let camp_name := campaign.campaign_name.getD ""
  if strContains camp_name "BES" || strContains camp_name "Sponsorship" then
    { check := "Content Exclusions", result := "Needs Review",
      details := "Sponsorship requires S&P review." }
  else
    { check := "Content Exclusions", result := "Pass", details := "Standard exclusions applied." }

/-- `QAEngine.check_landing_page` from `qa_engine.py`: an absent
`landing_page` key defaults to the HTTPS Disney+ URL. -/
def check_landing_page (_payloads : List TraffickingPayload) (campaign : Campaign) : QAResult :=
  let url := campaign.landing_page.getD "https://disneyplus.com"
  if !(strStartsWith url "https://") then
    { check := "Landing Page", result := "Fail", details := "Non-HTTPS URL provided: " ++ url }
  else
    { check := "Landing Page", result := "Pass", details := "Click-through URLs act recursively." }

/-- String read of a payload parameter, Python `p.payload.get(k, dflt)`
under the data-model typing of the parameter as a string. -/
def payloadStr (d : List (String × Value)) (k : String) (dflt : String) : String :=
  match d.lookup k with
  | some (Value.vStr s) => s
  | _ => dflt

/-- `QAEngine.check_taxonomy` from `qa_engine.py`: fails iff some
CREATE_PLACEMENT payload carries a `placement_name` with fewer than 6 pipes. -/
def check_taxonomy (payloads : List TraffickingPayload) (_campaign : Campaign) : QAResult :=
  if payloads.any (fun p =>
      p.action == "CREATE_PLACEMENT" &&
        decide (countPipes (payloadStr p.payload "placement_name" "") < 6)) then
    { check := "Taxonomy Validation", result := "Fail",
      details := "Placement name does not follow pipe-delimited convention." }
  else
    { check := "Taxonomy Validation", result := "Pass", details := "Taxonomy valid." }

/-- `QAEngine.check_floodlight_tags` from `qa_engine.py`: permanent stub. -/
def check_floodlight_tags (_payloads : List TraffickingPayload) (_campaign : Campaign) : QAResult :=
  { check := "Floodlight Tags", result := "Pass", details := "Conversion tags correctly assigned." }

/-- `QAEngine.run_all_checks` from `qa_engine.py`: the empty-payload
short-circuit, then the eight checks in declaration order. -/
def run_all_checks (payloads : List TraffickingPayload) (campaign : Campaign) : List QAResult :=
  if payloads.isEmpty then
    [{ check := "Spec Compliance", result := "Fail", details := "No payloads to QA." }]
  else
    [ check_spec_compliance payloads campaign,
      check_tracking payloads campaign,
      check_targeting payloads campaign,
      check_frequency_cap payloads campaign,
      check_content_exclusions payloads campaign,
      check_landing_page payloads campaign,
      check_taxonomy payloads campaign,
      check_floodlight_tags payloads campaign ]

end QAEngine

/-- Forgets the wall-clock stamp on each payload, leaving every other field
intact; used to state what part of the router output depends on the clock. -/
def eraseTimestamps (ps : List TraffickingPayload) : List TraffickingPayload :=
  ps.map (fun p => { p with created_at := "" })

/-- Request-type strings matched by some branch of the dispatch chain in
`process_ticket` (the substring tests and exact matches, in source order). -/
def recognizedRequest (req : String) : Bool :=
  strContains req "New Campaign" || strContains req "New Placements" ||
  strContains req "Creative Rotation" || strContains req "Retrafficking" ||
  req == "Budget Change" || req == "New Line Item" || req == "Targeting Update" ||
  req == "Site Tagging" || req == "Kochava"

/-- Resolved values of the seven taxonomy fields, in order, with the
fallbacks the source applies: geo and brand both consult the ticket before
their `UNKNOWN_` defaults. -/
def taxonomyFields (ticket : Ticket) (campaign : Campaign) : List String :=
  [ campaign.campaign_name.getD "UNKNOWN_CAMP",
    campaign.targeting_geo.getD (ticket.targeting_geo.getD "UNKNOWN_GEO"),
    campaign.language.getD "ENG",
    campaign.brand_code.getD (ticket.brand.getD "UNKNOWN_BRAND"),
    campaign.title_name.getD "UNKNOWN_TITLE",
    campaign.campaign_objective.getD "Acq",
    campaign.channel_mapped.getD "ProgDisplay" ]

/-- Taxonomy construction exactly as the specification words it (spec
section 4.1): per-field fallbacks where only the geo field prefers a
ticket-level value, the brand fallback going straight to "UNKNOWN_BRAND".
Stands beside `build_placement_taxonomy` for comparison. -/
def claimedTaxonomy (ticket : Ticket) (campaign : Campaign) : String :=
  String.intercalate "|"
    [ campaign.campaign_name.getD "UNKNOWN_CAMP",
      campaign.targeting_geo.getD (ticket.targeting_geo.getD "UNKNOWN_GEO"),
      campaign.language.getD "ENG",
      campaign.brand_code.getD "UNKNOWN_BRAND",
      campaign.title_name.getD "UNKNOWN_TITLE",
      campaign.campaign_objective.getD "Acq",
      campaign.channel_mapped.getD "ProgDisplay" ]

/-- Concrete one-element payload list used to exercise the QA battery on
non-empty input. -/
def samplePayloads : List TraffickingPayload :=
  [ { campaign_id := "CMP-1"
      platform := "CM360"
      action := "CREATE_PLACEMENT"
      payload := [("placement_name", Value.vStr "a|b|c|d|e|f|g"), ("site", Value.vStr "DV360")]
      created_at := "2026-01-01T00:00:00" } ]

/-!
Helper lemmas shared by the claim theorems.
-/

theorem countPipes_append (a b : String) :
    countPipes (a ++ b) = countPipes a + countPipes b := by
  simp [countPipes, String.toList, String.data_append, List.count_append]

theorem countPipes_pipe : countPipes "|" = 1 := rfl

theorem countPipes_taxonomy (tk : Ticket) (cp : Campaign) :
    countPipes (TraffickingEngine.build_placement_taxonomy tk cp) =
      6 + ((taxonomyFields tk cp).map countPipes).sum := by
  simp [TraffickingEngine.build_placement_taxonomy, taxonomyFields,
    countPipes_append, countPipes_pipe]
  omega

/-- A substring found in `a` is still found in `a ++ b`. -/
theorem strContains_append_left (a b needle : String)
    (h : strContains a needle = true) :
    strContains (a ++ b) needle = true := by
  simp only [strContains, List.any_eq_true, List.mem_range, beq_iff_eq] at h ⊢
  obtain ⟨i, hi, hslice⟩ := h
  have hlen : needle.toList.length ≤ (a.toList.drop i).length := by
    have hl := congrArg List.length hslice
    simp only [List.length_take, List.length_drop] at hl ⊢
    omega
  have hdata : (a ++ b).toList = a.toList ++ b.toList := by
    simp [String.toList, String.data_append]
  have hile : i ≤ a.toList.length := by omega
  refine ⟨i, ?_, ?_⟩
  · have : (a ++ b).toList.length = a.toList.length + b.toList.length := by
      simp [hdata]
    omega
  · rw [hdata, List.drop_append_of_le_length hile, List.take_append_of_le_length hlen, hslice]

theorem check_targeting_check (ps : List TraffickingPayload) (c : Campaign) :
    (QAEngine.check_targeting ps c).check = "Targeting" := by
  simp only [QAEngine.check_targeting]
  repeat' split
  all_goals rfl

theorem check_frequency_cap_check (ps : List TraffickingPayload) (c : Campaign) :
    (QAEngine.check_frequency_cap ps c).check = "Frequency Cap" := by
  simp only [QAEngine.check_frequency_cap]
  repeat' split
  all_goals rfl

theorem check_content_exclusions_check (ps : List TraffickingPayload) (c : Campaign) :
    (QAEngine.check_content_exclusions ps c).check = "Content Exclusions" := by
  simp only [QAEngine.check_content_exclusions]
  repeat' split
  all_goals rfl

theorem check_landing_page_check (ps : List TraffickingPayload) (c : Campaign) :
    (QAEngine.check_landing_page ps c).check = "Landing Page" := by
  simp only [QAEngine.check_landing_page]
  repeat' split
  all_goals rfl

theorem check_taxonomy_check (ps : List TraffickingPayload) (c : Campaign) :
    (QAEngine.check_taxonomy ps c).check = "Taxonomy Validation" := by
  simp only [QAEngine.check_taxonomy]
  repeat' split
  all_goals rfl

/-!
Claim theorems.
-/

/-- C1: every ticket whose request type contains "New Campaign" or
"New Placements" routes to exactly 3 payloads, in the order
CREATE_CAMPAIGN_SHELL, CREATE_PLACEMENT, CREATE_INSERTION_ORDER; the first
two run on platform "CM360" and the third on the ticket platform
(fallback "DV360" when absent). -/
theorem new_campaign_route_payloads (now : String) (tk : Ticket) (cp : Campaign)
    (h : strContains (tk.request_type.getD "") "New Campaign" = true ∨
         strContains (tk.request_type.getD "") "New Placements" = true) :
    (TraffickingEngine.process_ticket now tk cp).map (fun p => (p.action, p.platform)) =
      [("CREATE_CAMPAIGN_SHELL", "CM360"), ("CREATE_PLACEMENT", "CM360"),
       ("CREATE_INSERTION_ORDER", tk.platform.getD "DV360")] := by
  have hor : (strContains (tk.request_type.getD "") "New Campaign" ||
      strContains (tk.request_type.getD "") "New Placements") = true := by
    rcases h with h | h <;> simp [h]
  simp [TraffickingEngine.process_ticket, hor, TraffickingEngine.handle_new_campaign_setup]

/-- Witness for C1 at a concrete "New Placements" ticket on Amazon DSP. -/
theorem new_campaign_route_payloads_witness :
    (TraffickingEngine.process_ticket "2026-01-01T00:00:00"
        { request_type := some "New Placements - Spring", platform := some "Amazon DSP" }
        { }).map (fun p => (p.action, p.platform)) =
      [("CREATE_CAMPAIGN_SHELL", "CM360"), ("CREATE_PLACEMENT", "CM360"),
       ("CREATE_INSERTION_ORDER", "Amazon DSP")] :=
  new_campaign_route_payloads "2026-01-01T00:00:00"
    { request_type := some "New Placements - Spring", platform := some "Amazon DSP" }
    { } (Or.inr (by decide))

/-- C2 counterexample: `process_ticket` stamps `created_at` with the current
wall-clock reading (an implicit input of the Python code, an explicit `now`
argument here), so two calls on identical ticket and campaign but distinct
clock readings produce outputs that are NOT deep-equal. -/
theorem route_clock_dependent :
    TraffickingEngine.process_ticket "2026-01-01T00:00:00"
        { request_type := some "New Campaign" } { } ≠
      TraffickingEngine.process_ticket "2026-01-01T00:00:01"
        { request_type := some "New Campaign" } { } := by decide

/-- C2 amended: both functions are deterministic apart from the wall-clock
stamp.  Routing twice on identical inputs yields outputs equal after erasing
`created_at` (equal outright when the clock readings coincide, since the
clock is the only implicit input), and the QA evaluation never reads
`created_at`, so it is fully deterministic on identical inputs. -/
theorem route_qa_deterministic_up_to_timestamp :
    (∀ (t1 t2 : String) (tk : Ticket) (cp : Campaign),
      eraseTimestamps (TraffickingEngine.process_ticket t1 tk cp) =
        eraseTimestamps (TraffickingEngine.process_ticket t2 tk cp)) ∧
    (∀ (ps : List TraffickingPayload) (c : Campaign),
      QAEngine.run_all_checks (eraseTimestamps ps) c = QAEngine.run_all_checks ps c) := by
  constructor
  · intro t1 t2 tk cp
    simp only [TraffickingEngine.process_ticket]
    repeat' split
    all_goals simp [eraseTimestamps, TraffickingEngine.handle_new_campaign_setup,
      TraffickingEngine.handle_creative_rotation, TraffickingEngine.handle_budget_change,
      TraffickingEngine.handle_new_line_item, TraffickingEngine.handle_targeting_update,
      TraffickingEngine.handle_tag_implementation]
  · intro ps c
    cases ps with
    | nil => rfl
    | cons p rest =>
      simp [eraseTimestamps, QAEngine.run_all_checks, QAEngine.check_spec_compliance,
        QAEngine.check_tracking, QAEngine.check_targeting, QAEngine.check_frequency_cap,
        QAEngine.check_content_exclusions, QAEngine.check_landing_page,
        QAEngine.check_taxonomy, QAEngine.check_floodlight_tags, List.any_map,
        Function.comp]

/-- C3: on an empty payload list the QA battery short-circuits to exactly
one Fail result for Spec Compliance with details "No payloads to QA."; on
any non-empty payload list it returns exactly 8 results whose check names
appear in the fixed declaration order, Spec Compliance first. -/
theorem qa_check_shape (payloads : List TraffickingPayload) (campaign : Campaign) :
    (payloads = [] →
      QAEngine.run_all_checks payloads campaign =
        [{ check := "Spec Compliance", result := "Fail", details := "No payloads to QA." }]) ∧
    (payloads ≠ [] →
      (QAEngine.run_all_checks payloads campaign).map QAResult.check =
        ["Spec Compliance", "Tracking", "Targeting", "Frequency Cap", "Content Exclusions",
         "Landing Page", "Taxonomy Validation", "Floodlight Tags"]) := by
  constructor
  · intro h; subst h; rfl
  · intro h
    match payloads, h with
    | p :: ps, _ =>
      simp [QAEngine.run_all_checks, QAEngine.check_spec_compliance, check_targeting_check,
        check_frequency_cap_check, check_content_exclusions_check, check_landing_page_check,
        check_taxonomy_check, QAEngine.check_tracking, QAEngine.check_floodlight_tags]

/-- Witness for C3 on the empty list and on a concrete singleton list. -/
theorem qa_check_shape_witness :
    QAEngine.run_all_checks [] { } =
      [{ check := "Spec Compliance", result := "Fail", details := "No payloads to QA." }] ∧
    (QAEngine.run_all_checks samplePayloads { }).map QAResult.check =
      ["Spec Compliance", "Tracking", "Targeting", "Frequency Cap", "Content Exclusions",
       "Landing Page", "Taxonomy Validation", "Floodlight Tags"] :=
  ⟨(qa_check_shape [] { }).1 rfl, (qa_check_shape samplePayloads { }).2 (by decide)⟩

/-- C4 counterexample: the taxonomy string does not contain exactly 6 pipes
for EVERY input — a campaign whose own field value carries a pipe yields 7. -/
theorem taxonomy_pipe_count_not_exactly_six :
    countPipes (TraffickingEngine.build_placement_taxonomy { }
      { campaign_name := some "Promo|2026" }) ≠ 6 := by decide

/-- C4 amended: the taxonomy string always contains at least 6 pipes, and
exactly 6 whenever none of the seven resolved field values itself contains a
pipe (in particular for all pipe-free campaign and ticket fields, including
every fallback default). -/
theorem taxonomy_pipe_count_bound (tk : Ticket) (cp : Campaign) :
    6 ≤ countPipes (TraffickingEngine.build_placement_taxonomy tk cp) ∧
    ((∀ f ∈ taxonomyFields tk cp, countPipes f = 0) →
      countPipes (TraffickingEngine.build_placement_taxonomy tk cp) = 6) := by
  have h := countPipes_taxonomy tk cp
  constructor
  · omega
  · intro hall
    have hz : ((taxonomyFields tk cp).map countPipes).sum = 0 := by
      apply List.sum_eq_zero
      intro x hx
      simp only [List.mem_map] at hx
      obtain ⟨f, hf, rfl⟩ := hx
      exact hall f hf
    omega

/-- Witness for C4 at the all-fallback input: exactly 6 pipes. -/
theorem taxonomy_pipe_count_bound_witness :
    6 ≤ countPipes (TraffickingEngine.build_placement_taxonomy { } { }) ∧
    countPipes (TraffickingEngine.build_placement_taxonomy { } { }) = 6 :=
  ⟨(taxonomy_pipe_count_bound { } { }).1, (taxonomy_pipe_count_bound { } { }).2 (by decide)⟩

/-- C5 counterexample: the per-field fallback table of the claim says the brand
field falls back to "UNKNOWN_BRAND", but the source first consults the
ticket-level `brand` key; on a ticket carrying `brand` and a campaign
without `brand_code` the two disagree. -/
theorem taxonomy_brand_fallback_counterexample :
    TraffickingEngine.build_placement_taxonomy { brand := some "XYZ" } { } ≠
      claimedTaxonomy { brand := some "XYZ" } { } := by decide

/-- C5 amended: the taxonomy string is the pipe-delimited concatenation of
exactly the 7 fields in order campaign_name, targeting_geo, language,
brand_code, title_name, campaign_objective, channel_mapped, with the stated
fallbacks, except that brand_code — like targeting_geo — prefers a
ticket-level value (`brand`) before falling back to "UNKNOWN_BRAND"; the
DBUN sample campaign yields the exact string the claim lists. -/
theorem taxonomy_field_structure :
    (∀ (tk : Ticket) (cp : Campaign),
      TraffickingEngine.build_placement_taxonomy tk cp =
        String.intercalate "|" (taxonomyFields tk cp)) ∧
    TraffickingEngine.build_placement_taxonomy { }
      { campaign_name := some "DBUN_Bundle_Acq_US_ProgDisplay", targeting_geo := some "US",
        language := some "ENG", brand_code := some "DBUN", title_name := some "Bundle",
        campaign_objective := some "Acq", channel_mapped := some "ProgDisplay" } =
      "DBUN_Bundle_Acq_US_ProgDisplay|US|ENG|DBUN|Bundle|Acq|ProgDisplay" :=
  ⟨fun _ _ => rfl, by decide⟩

/-- C6: `get_eve_version` implements exactly the fixed tier table — CM360
with ProgAudio/ProgCTV/ProgNative gives "V2.2", CM360 with YouTube "V2.1",
Yahoo DSP always "V2", Amazon DSP always "V3", DV360 always "V1", and every
other platform (and CM360 with any other channel) the default "V1"; the
five sample equalities of spec section 8 are instances of these clauses. -/
theorem eve_version_table :
    (∀ ch, ch ∈ (["ProgAudio", "ProgCTV", "ProgNative"] : List String) →
      TraffickingEngine.get_eve_version "CM360" ch = "V2.2") ∧
    TraffickingEngine.get_eve_version "CM360" "YouTube" = "V2.1" ∧
    (∀ ch, TraffickingEngine.get_eve_version "Yahoo DSP" ch = "V2") ∧
    (∀ ch, TraffickingEngine.get_eve_version "Amazon DSP" ch = "V3") ∧
    (∀ ch, TraffickingEngine.get_eve_version "DV360" ch = "V1") ∧
    (∀ p ch, p ≠ "CM360" → p ≠ "Yahoo DSP" → p ≠ "Amazon DSP" → p ≠ "DV360" →
      TraffickingEngine.get_eve_version p ch = "V1") ∧
    (∀ ch, ch ∉ (["ProgAudio", "ProgCTV", "ProgNative", "YouTube"] : List String) →
      TraffickingEngine.get_eve_version "CM360" ch = "V1") ∧
    (TraffickingEngine.get_eve_version "DV360" "ProgDisplay" = "V1" ∧
     TraffickingEngine.get_eve_version "Yahoo DSP" "ProgDisplay" = "V2" ∧
     TraffickingEngine.get_eve_version "CM360" "YouTube" = "V2.1" ∧
     TraffickingEngine.get_eve_version "CM360" "ProgAudio" = "V2.2" ∧
     TraffickingEngine.get_eve_version "Amazon DSP" "ProgCTV" = "V3") := by
  refine ⟨?_, by decide, ?_, ?_, ?_, ?_, ?_, by decide⟩
  · intro ch hch
    simp [TraffickingEngine.get_eve_version, hch]
  · intro ch
    simp [TraffickingEngine.get_eve_version]
  · intro ch
    simp [TraffickingEngine.get_eve_version]
  · intro ch
    simp [TraffickingEngine.get_eve_version]
  · intro p ch h1 h2 h3 h4
    simp [TraffickingEngine.get_eve_version, h1, h2, h3, h4]
  · intro ch hch
    simp only [List.mem_cons, List.not_mem_nil, or_false, not_or] at hch
    obtain ⟨a1, a2, a3, a4⟩ := hch
    simp [TraffickingEngine.get_eve_version, a1, a2, a3, a4]

/-- Witness for C6 exercising the hypothesis-bearing table rows: a listed
CM360 channel, a platform outside the table, and CM360 with an unlisted
channel. -/
theorem eve_version_table_witness :
    TraffickingEngine.get_eve_version "CM360" "ProgCTV" = "V2.2" ∧
    TraffickingEngine.get_eve_version "Meta" "Paid Social" = "V1" ∧
    TraffickingEngine.get_eve_version "CM360" "ProgDisplay" = "V1" :=
  ⟨eve_version_table.1 "ProgCTV" (by decide),
   eve_version_table.2.2.2.2.2.1 "Meta" "Paid Social"
     (by decide) (by decide) (by decide) (by decide),
   eve_version_table.2.2.2.2.2.2.1 "ProgDisplay" (by decide)⟩

/-- C7: router and evaluator are total on well-typed input (both are plain
functions of their arguments in this embedding, so neither can fail); in
particular an unrecognized request type routes to the empty payload list
rather than an error, an absent landing page defaults to
"https://disneyplus.com" and passes the check, and the evaluator always
returns at least one result. -/
theorem core_total_with_defaults :
    (∀ (now : String) (tk : Ticket) (cp : Campaign),
      recognizedRequest (tk.request_type.getD "") = false →
        TraffickingEngine.process_ticket now tk cp = []) ∧
    (∀ (ps : List TraffickingPayload) (c : Campaign), c.landing_page = none →
      QAEngine.check_landing_page ps c =
        { check := "Landing Page", result := "Pass",
          details := "Click-through URLs act recursively." }) ∧
    (∀ (ps : List TraffickingPayload) (c : Campaign), QAEngine.run_all_checks ps c ≠ []) := by
  refine ⟨?_, ?_, ?_⟩
  · intro now tk cp h
    simp only [recognizedRequest, Bool.or_eq_false_iff, beq_eq_false_iff_ne] at h
    obtain ⟨⟨⟨⟨⟨⟨⟨⟨h1, h2⟩, h3⟩, h4⟩, h5⟩, h6⟩, h7⟩, h8⟩, h9⟩ := h
    simp [TraffickingEngine.process_ticket, h1, h2, h3, h4, h5, h6, h7, h8, h9]
  · intro ps c hn
    simp [QAEngine.check_landing_page, hn, strStartsWith]
  · intro ps c
    cases ps with
    | nil => simp [QAEngine.run_all_checks]
    | cons p rest => simp [QAEngine.run_all_checks]

/-- Witness for C7: a concrete unrecognized request type routes to no
payloads, and a campaign without a landing page passes the landing-page
check via the HTTPS default. -/
theorem core_total_with_defaults_witness :
    TraffickingEngine.process_ticket "2026-01-01T00:00:00"
        { request_type := some "General Question" } { } = [] ∧
    QAEngine.check_landing_page samplePayloads { } =
      { check := "Landing Page", result := "Pass",
        details := "Click-through URLs act recursively." } ∧
    QAEngine.run_all_checks [] { } ≠ [] :=
  ⟨core_total_with_defaults.1 "2026-01-01T00:00:00"
      { request_type := some "General Question" } { } (by decide),
   core_total_with_defaults.2.1 samplePayloads { } rfl,
   core_total_with_defaults.2.2 [] { }⟩

/-- C8: on non-empty payloads the 5th QA result is the Content Exclusions
check; its verdict is the needs-review value exactly when the campaign name
contains "BES" or "Sponsorship" (case-sensitive), its details then contain
"S&P review", and otherwise the verdict is Pass. -/
theorem content_exclusions_verdict (payloads : List TraffickingPayload) (campaign : Campaign)
    (h : payloads ≠ []) :
    (QAEngine.run_all_checks payloads campaign)[4]? =
      some (QAEngine.check_content_exclusions payloads campaign) ∧
    ((QAEngine.check_content_exclusions payloads campaign).result = "Needs Review" ↔
      (strContains (campaign.campaign_name.getD "") "BES" = true ∨
       strContains (campaign.campaign_name.getD "") "Sponsorship" = true)) ∧
    ((strContains (campaign.campaign_name.getD "") "BES" = true ∨
      strContains (campaign.campaign_name.getD "") "Sponsorship" = true) →
      strContains (QAEngine.check_content_exclusions payloads campaign).details
        "S&P review" = true) ∧
    ((QAEngine.check_content_exclusions payloads campaign).result = "Pass" ↔
      ¬(strContains (campaign.campaign_name.getD "") "BES" = true ∨
        strContains (campaign.campaign_name.getD "") "Sponsorship" = true)) := by
  refine ⟨?_, ?_, ?_, ?_⟩
  · match payloads, h with
    | p :: ps, _ => rfl
  all_goals
    simp only [QAEngine.check_content_exclusions]
    cases hb : (strContains (campaign.campaign_name.getD "") "BES" ||
        strContains (campaign.campaign_name.getD "") "Sponsorship") <;>
      simp [← Bool.or_eq_true, hb] <;> decide

/-- Witness for C8 on the sponsorship sample campaign of spec section 8. -/
theorem content_exclusions_verdict_witness :
    (QAEngine.run_all_checks samplePayloads
        { campaign_name := some "ESP_Sports_Sponsorship_US" })[4]? =
      some (QAEngine.check_content_exclusions samplePayloads
        { campaign_name := some "ESP_Sports_Sponsorship_US" }) ∧
    (QAEngine.check_content_exclusions samplePayloads
      { campaign_name := some "ESP_Sports_Sponsorship_US" }).result = "Needs Review" ∧
    strContains (QAEngine.check_content_exclusions samplePayloads
      { campaign_name := some "ESP_Sports_Sponsorship_US" }).details "S&P review" = true := by
  obtain ⟨h1, h2, h3, _⟩ := content_exclusions_verdict samplePayloads
    { campaign_name := some "ESP_Sports_Sponsorship_US" } (by decide)
  exact ⟨h1, h2.mpr (Or.inr (by decide)), h3 (Or.inr (by decide))⟩

/-- C9: on non-empty payloads the 6th QA result is the Landing Page check;
it fails exactly when the campaign carries a landing page that does not
start with "https://" (details then contain "Non-HTTPS URL"), and an absent
landing page falls back to "https://disneyplus.com" and passes. -/
theorem landing_page_verdict (payloads : List TraffickingPayload) (campaign : Campaign)
    (h : payloads ≠ []) :
    (QAEngine.run_all_checks payloads campaign)[5]? =
      some (QAEngine.check_landing_page payloads campaign) ∧
    (campaign.landing_page = none →
      QAEngine.check_landing_page payloads campaign =
        { check := "Landing Page", result := "Pass",
          details := "Click-through URLs act recursively." }) ∧
    (∀ url, campaign.landing_page = some url →
      ((QAEngine.check_landing_page payloads campaign).result = "Fail" ↔
        strStartsWith url "https://" = false) ∧
      (strStartsWith url "https://" = false →
        strContains (QAEngine.check_landing_page payloads campaign).details
          "Non-HTTPS URL" = true) ∧
      (strStartsWith url "https://" = true →
        (QAEngine.check_landing_page payloads campaign).result = "Pass")) := by
  refine ⟨?_, ?_, ?_⟩
  · match payloads, h with
    | p :: ps, _ => rfl
  · intro hn
    simp [QAEngine.check_landing_page, hn, strStartsWith]
  · intro url hu
    simp only [QAEngine.check_landing_page, hu, Option.getD_some]
    cases hs : strStartsWith url "https://" <;> simp [hs]
    exact strContains_append_left "Non-HTTPS URL provided: " url "Non-HTTPS URL" (by decide)

/-- Witness for C9 on the non-HTTPS sample landing page of spec section 8. -/
theorem landing_page_verdict_witness :
    (QAEngine.run_all_checks samplePayloads
        { landing_page := some "http://disney.com" })[5]? =
      some (QAEngine.check_landing_page samplePayloads
        { landing_page := some "http://disney.com" }) ∧
    (QAEngine.check_landing_page samplePayloads
      { landing_page := some "http://disney.com" }).result = "Fail" ∧
    strContains (QAEngine.check_landing_page samplePayloads
      { landing_page := some "http://disney.com" }).details "Non-HTTPS URL" = true := by
  obtain ⟨h1, _, h3⟩ := landing_page_verdict samplePayloads
    { landing_page := some "http://disney.com" } (by decide)
  obtain ⟨hf, hd, _⟩ := h3 "http://disney.com" rfl
  exact ⟨h1, hf.mpr (by decide), hd (by decide)⟩

/-- C10: every payload produced by one `process_ticket` call carries status
"Pending" and response `None`, and its campaign_id is the ticket
campaign_id when present, else the fallback "CMP-UNKNOWN" — so all payloads
of one call share the same campaign_id. -/
theorem payload_invariants (now : String) (tk : Ticket) (cp : Campaign)
    (p : TraffickingPayload) (hp : p ∈ TraffickingEngine.process_ticket now tk cp) :
    p.status = "Pending" ∧ p.response = none ∧
      p.campaign_id = tk.campaign_id.getD "CMP-UNKNOWN" := by
  simp only [TraffickingEngine.process_ticket] at hp
  split at hp
  · simp only [TraffickingEngine.handle_new_campaign_setup, List.mem_cons,
      List.not_mem_nil, or_false] at hp
    rcases hp with rfl | rfl | rfl <;> exact ⟨rfl, rfl, rfl⟩
  · split at hp
    · simp only [TraffickingEngine.handle_creative_rotation, List.mem_cons,
        List.not_mem_nil, or_false] at hp
      rcases hp with rfl
      exact ⟨rfl, rfl, rfl⟩
    · split at hp
      · simp only [TraffickingEngine.handle_budget_change, List.mem_cons,
          List.not_mem_nil, or_false] at hp
        rcases hp with rfl
        exact ⟨rfl, rfl, rfl⟩
      · split at hp
        · simp only [TraffickingEngine.handle_new_line_item, List.mem_cons,
            List.not_mem_nil, or_false] at hp
          rcases hp with rfl
          exact ⟨rfl, rfl, rfl⟩
        · split at hp
          · simp only [TraffickingEngine.handle_targeting_update, List.mem_cons,
              List.not_mem_nil, or_false] at hp
            rcases hp with rfl
            exact ⟨rfl, rfl, rfl⟩
          · split at hp
            · simp only [TraffickingEngine.handle_tag_implementation, List.mem_cons,
                List.not_mem_nil, or_false] at hp
              rcases hp with rfl
              exact ⟨rfl, rfl, rfl⟩
            · exact absurd hp (List.not_mem_nil p)

/-- Witness for C10 on the single payload of a concrete Budget Change
ticket carrying an explicit campaign_id. -/
theorem payload_invariants_witness :
    ({ campaign_id := "CMP-1", platform := "DV360", action := "UPDATE_BUDGET",
       payload := [("new_budget", Value.vNum 0)],
       created_at := "T" } : TraffickingPayload).status = "Pending" ∧
    ({ campaign_id := "CMP-1", platform := "DV360", action := "UPDATE_BUDGET",
       payload := [("new_budget", Value.vNum 0)],
       created_at := "T" } : TraffickingPayload).response = none ∧
    ({ campaign_id := "CMP-1", platform := "DV360", action := "UPDATE_BUDGET",
       payload := [("new_budget", Value.vNum 0)],
       created_at := "T" } : TraffickingPayload).campaign_id = "CMP-1" :=
  payload_invariants "T" { request_type := some "Budget Change", campaign_id := some "CMP-1" }
    { }
    { campaign_id := "CMP-1", platform := "DV360", action := "UPDATE_BUDGET",
      payload := [("new_budget", Value.vNum 0)], created_at := "T" }
    (by decide)

end AdOps
